import Mathlib

/-!
Verification of `scripts/extract_jira.py` (jira-dashboard).

The script is embedded shallowly: Python dicts/JSON values become the
inductive `JVal`, Python exceptions become an explicit `Except PyErr`
result, the paginated HTTP loops become fuel-indexed structural
recursions (the fuel `max_results + 1` is an upper bound on the number
of loop iterations, since every iteration that continues appends at
least one issue and the loop only runs while fewer than `max_results`
issues are accumulated), and the HTTP servers become explicit functions
from requests to responses.
-/

namespace JiraDash

/-- A JSON-like value as manipulated by the Python script: the raw issue
records, filter responses and normalized field values. Numbers are
modelled as integers (no floating point is ever touched by the script's
logic). -/
inductive JVal : Type where
  | null : JVal
  | str : String → JVal
  | num : Int → JVal
  | obj : List (String × JVal) → JVal
  | arr : List JVal → JVal

mutual

/-- Decidable equality of JSON-like values (Python `==` on these shapes). -/
def JVal.decEq : (a b : JVal) → Decidable (a = b)
  | .null, .null => isTrue rfl
  | .str a, .str b =>
    if h : a = b then isTrue (by rw [h]) else isFalse (fun hc => by injection hc with h1; exact h h1)
  | .num a, .num b =>
    if h : a = b then isTrue (by rw [h]) else isFalse (fun hc => by injection hc with h1; exact h h1)
  | .obj a, .obj b =>
    match JVal.decEqObjList a b with
    | isTrue h => isTrue (by rw [h])
    | isFalse h => isFalse (fun hc => by injection hc with h1; exact h h1)
  | .arr a, .arr b =>
    match JVal.decEqList a b with
    | isTrue h => isTrue (by rw [h])
    | isFalse h => isFalse (fun hc => by injection hc with h1; exact h h1)
  | .null, .str _ => isFalse (fun h => nomatch h)
  | .null, .num _ => isFalse (fun h => nomatch h)
  | .null, .obj _ => isFalse (fun h => nomatch h)
  | .null, .arr _ => isFalse (fun h => nomatch h)
  | .str _, .null => isFalse (fun h => nomatch h)
  | .str _, .num _ => isFalse (fun h => nomatch h)
  | .str _, .obj _ => isFalse (fun h => nomatch h)
  | .str _, .arr _ => isFalse (fun h => nomatch h)
  | .num _, .null => isFalse (fun h => nomatch h)
  | .num _, .str _ => isFalse (fun h => nomatch h)
  | .num _, .obj _ => isFalse (fun h => nomatch h)
  | .num _, .arr _ => isFalse (fun h => nomatch h)
  | .obj _, .null => isFalse (fun h => nomatch h)
  | .obj _, .str _ => isFalse (fun h => nomatch h)
  | .obj _, .num _ => isFalse (fun h => nomatch h)
  | .obj _, .arr _ => isFalse (fun h => nomatch h)
  | .arr _, .null => isFalse (fun h => nomatch h)
  | .arr _, .str _ => isFalse (fun h => nomatch h)
  | .arr _, .num _ => isFalse (fun h => nomatch h)
  | .arr _, .obj _ => isFalse (fun h => nomatch h)

/-- Decidable equality of dict entry lists. -/
def JVal.decEqObjList : (a b : List (String × JVal)) → Decidable (a = b)
  | [], [] => isTrue rfl
  | [], _ :: _ => isFalse (fun h => nomatch h)
  | _ :: _, [] => isFalse (fun h => nomatch h)
  | (k, v) :: r, (k2, v2) :: r2 =>
    if hk : k = k2 then
      match JVal.decEq v v2 with
      | isTrue hv =>
        match JVal.decEqObjList r r2 with
        | isTrue hr => isTrue (by rw [hk, hv, hr])
        | isFalse hr => isFalse (fun hc => by injection hc with h1 h2; exact hr h2)
      | isFalse hv =>
        isFalse (fun hc => by injection hc with h1 h2; injection h1 with hk1 hv1; exact hv hv1)
    else isFalse (fun hc => by injection hc with h1 h2; injection h1 with hk1 hv1; exact hk hk1)

/-- Decidable equality of value lists. -/
def JVal.decEqList : (a b : List JVal) → Decidable (a = b)
  | [], [] => isTrue rfl
  | [], _ :: _ => isFalse (fun h => nomatch h)
  | _ :: _, [] => isFalse (fun h => nomatch h)
  | v :: r, v2 :: r2 =>
    match JVal.decEq v v2 with
    | isTrue hv =>
      match JVal.decEqList r r2 with
      | isTrue hr => isTrue (by rw [hv, hr])
      | isFalse hr => isFalse (fun hc => by injection hc with h1 h2; exact hr h2)
    | isFalse hv => isFalse (fun hc => by injection hc with h1 h2; exact hv h1)

end

instance : DecidableEq JVal := JVal.decEq

/-- Python truthiness of a JSON-like value (`None`, `""`, `0`, `{}`, `[]`
are falsy). -/
def JVal.truthy : JVal → Bool
  | .null => false
  | .str s => s ≠ ""
  | .num n => n ≠ 0
  | .obj m => !m.isEmpty
  | .arr xs => !xs.isEmpty

/-- First-occurrence lookup in an association list; `d[k]` access order of
a Python dict (keys are unique in an actual dict, insertion order kept). -/
def alistGet {κ β : Type} [DecidableEq κ] : List (κ × β) → κ → Option β
  | [], _ => none
  | (k, v) :: rest, key => if key = k then some v else alistGet rest key

/-- Python exceptions / process exits that the script can produce. -/
inductive PyErr : Type where
  | systemExit (code : Nat) : PyErr
  | nameError (name : String) : PyErr
  | attributeError : PyErr
  | httpError (status : Nat) : PyErr
deriving DecidableEq

instance {ε α : Type} [DecidableEq ε] [DecidableEq α] : DecidableEq (Except ε α) := fun x y =>
  match x, y with
  | .ok a, .ok b =>
    if h : a = b then isTrue (by rw [h]) else isFalse (by intro hc; cases hc; exact h rfl)
  | .error a, .error b =>
    if h : a = b then isTrue (by rw [h]) else isFalse (by intro hc; cases hc; exact h rfl)
  | .ok _, .error _ => isFalse (by intro hc; cases hc)
  | .error _, .ok _ => isFalse (by intro hc; cases hc)

/-- Python `d.get(key, default)` where `d` is expected to be a dict; on a
non-dict value the attribute access `.get` raises `AttributeError`. -/
def pyGetD (d : JVal) (key : String) (dflt : JVal) : Except PyErr JVal :=
  match d with
  | .obj m => .ok ((alistGet m key).getD dflt)
  | _ => .error .attributeError

/-- Python `d.get(key)` (default `None`). -/
def pyGet (d : JVal) (key : String) : Except PyErr JVal :=
  pyGetD d key .null

/-! ## Configuration (module-level globals of the script) -/

/-- The module-level configuration of `extract_jira.py`
(`JIRA_URL`, `JIRA_EMAIL`, `JIRA_API_TOKEN`, `JIRA_JQL_DEFAULT`,
`JIRA_API_VERSION`), read from the environment at import time. -/
structure Config : Type where
  jira_url : String
  jira_email : String
  jira_api_token : String
  jira_jql_default : String
  jira_api_version : String
deriving DecidableEq

/-- Python truthiness of a string (`bool(s)`): nonempty. -/
def pyTruthyStr (s : String) : Bool := s ≠ ""

/-- `all([JIRA_URL, JIRA_EMAIL, JIRA_API_TOKEN])` from line 54 of the
script: all three required connection parameters are set (truthy). -/
def pyAllSet (cfg : Config) : Bool :=
  pyTruthyStr cfg.jira_url && pyTruthyStr cfg.jira_email && pyTruthyStr cfg.jira_api_token

/-! ## Issue fetcher (`fetch_all_issues`, cursor mode lines 65-94)

The HTTP layer is modelled at the level of the parsed wire data: a server
is a function from the request parameters the script sends to the status
code and the two response fields the script reads (`issues`,
`nextPageToken`). The raw issue records themselves are opaque to the
fetcher, hence a type parameter `α`. -/

/-- Query parameters of one GET to `/rest/api/3/search/jql`:
`jql`, `maxResults`, and the optional `nextPageToken` (absent on the
first request and whenever the stored token is falsy). -/
structure CursorRequest : Type where
  jql : String
  maxResults : Nat
  nextPageToken : Option String
deriving DecidableEq

/-- The parts of a cursor-mode response the script reads: the HTTP status
code, `data.get("issues", [])` and `data.get("nextPageToken")`. -/
structure CursorResponse (α : Type) : Type where
  status : Nat
  issues : List α
  nextPageToken : Option String

/-- Python truthiness of the stored `next_page_token` (`None` and `""` are
falsy). -/
def tokenTruthy : Option String → Bool
  | none => false
  | some s => s ≠ ""

/-- Line 72-73: `if next_page_token: params["nextPageToken"] = next_page_token`;
a falsy token is not sent. -/
def optTokenParam (token : Option String) : Option String :=
  if tokenTruthy token then token else none

/-- The cursor-mode `while` loop (lines 67-94), as a fuel-indexed
recursion. One unfolding is one loop iteration: check the budget, send
the request, raise on a non-200 status, extend the accumulator, store the
new token, and break when the token is falsy or the page was empty.
The fuel only bounds the number of iterations; `fetch_all_issues` passes
`max_results + 1`, which is never exhausted because each iteration that
continues appends at least one issue and the loop only runs while fewer
than `max_results` issues are accumulated. -/
def cursorLoop {α : Type} (server : CursorRequest → CursorResponse α) (jql : String)
    (max_results : Nat) : Nat → Option String → List α → Except PyErr (List α)
  | fuel, token, acc =>
    if acc.length < max_results then
      match fuel with
      | 0 => .ok acc
      | fuel + 1 =>
        let resp := server ⟨jql, min 100 (max_results - acc.length), optTokenParam token⟩
        if resp.status ≠ 200 then .error (.httpError resp.status)
        else if tokenTruthy resp.nextPageToken && !resp.issues.isEmpty then
          cursorLoop server jql max_results fuel resp.nextPageToken (acc ++ resp.issues)
        else .ok (acc ++ resp.issues)
    else .ok acc

/-- The same loop, instrumented to record the sequence of
(request, response) exchanges it performs, in order. -/
def cursorSteps {α : Type} (server : CursorRequest → CursorResponse α) (jql : String)
    (max_results : Nat) : Nat → Option String → List α → List (CursorRequest × CursorResponse α)
  | fuel, token, acc =>
    if acc.length < max_results then
      match fuel with
      | 0 => []
      | fuel + 1 =>
        let req : CursorRequest := ⟨jql, min 100 (max_results - acc.length), optTokenParam token⟩
        let resp := server req
        if resp.status ≠ 200 then [(req, resp)]
        else if tokenTruthy resp.nextPageToken && !resp.issues.isEmpty then
          (req, resp) :: cursorSteps server jql max_results fuel resp.nextPageToken (acc ++ resp.issues)
        else [(req, resp)]
    else []

/-- `fetch_all_issues(jql, max_results)` (lines 47-116). A `None` `jql`
argument defaults to `JIRA_JQL_DEFAULT`; missing connection parameters
exit the process with code 1 before anything else; API version `"3"`
runs the cursor-mode loop and returns `all_issues[:max_results]`; any
other API version enters the offset-mode branch (lines 95-114), whose
first iteration evaluates the unbound name `headers` at line 106 and
therefore raises `NameError` before any request is issued. -/
def fetch_all_issues {α : Type} (cfg : Config) (server : CursorRequest → CursorResponse α)
    (jqlArg : Option String) (max_results : Nat) : Except PyErr (List α) :=
  let jql := jqlArg.getD cfg.jira_jql_default
  if pyAllSet cfg then
    if cfg.jira_api_version = "3" then
      (cursorLoop server jql max_results (max_results + 1) none []).map
        (fun l => l.take max_results)
    else
      .error (.nameError "headers")
  else
    .error (.systemExit 1)

/-- The HTTP requests a call to `fetch_all_issues` issues, in order:
none when the configuration check fails (the process exits first), and
none in the offset-mode branch (the `NameError` on the unbound `headers`
is raised while building the arguments of the first `requests.get`). -/
def fetch_requests {α : Type} (cfg : Config) (server : CursorRequest → CursorResponse α)
    (jqlArg : Option String) (max_results : Nat) : List CursorRequest :=
  let jql := jqlArg.getD cfg.jira_jql_default
  if pyAllSet cfg then
    if cfg.jira_api_version = "3" then
      (cursorSteps server jql max_results (max_results + 1) none []).map Prod.fst
    else []
  else []

/-- The full upstream-order sequence of issue records the server supplies
across the pages of one cursor-mode fetch. -/
def servedIssues {α : Type} (server : CursorRequest → CursorResponse α) (jql : String)
    (max_results : Nat) : List α :=
  ((cursorSteps server jql max_results (max_results + 1) none []).map
    (fun p => p.2.issues)).flatten

/-! ## Filter resolver (`get_filter_jql`, `_ensure_bounded_jql`,
`fetch_filter_issues`, lines 119-143) -/

/-- Python `str.lower()` (ASCII case mapping; no claim exercises
non-ASCII case folding). -/
def pyLower (s : String) : String := String.mk (s.data.map Char.toLower)

/-- Whether `needle` occurs at the start of `hay`. -/
def beginsWith : List Char → List Char → Bool
  | [], _ => true
  | _ :: _, [] => false
  | a :: as, b :: bs => a = b && beginsWith as bs

/-- Auxiliary recursion for `containsSub` over character lists. -/
def containsSubAux (needle : List Char) : List Char → Bool
  | [] => needle.isEmpty
  | c :: rest => beginsWith needle (c :: rest) || containsSubAux needle rest

/-- Python substring containment `needle in hay`. -/
def containsSub (needle hay : String) : Bool :=
  containsSubAux needle.data hay.data

/-- `_ensure_bounded_jql` (lines 130-135): lowercase the query; if none of
`"updated"`, `"created"`, `"resolved"` occurs in it, conjoin a fixed
90-day recency bound, else return the query unchanged. -/
def _ensure_bounded_jql (jql : String) : String :=
  let jql_lower := pyLower jql
  if ["updated", "created", "resolved"].any (fun x => containsSub x jql_lower) then jql
  else "(" ++ jql ++ ") AND updated >= -90d"

/-- Status code and (already parsed) JSON body of the one GET that
`get_filter_jql` performs against `/rest/api/{version}/filter/{id}`. -/
structure HttpResp : Type where
  status : Nat
  body : JVal

/-- `get_filter_jql(filter_id)` (lines 119-127), given the response of
the filter endpoint for that id: a non-200 status returns `None`
(modelled `JVal.null`) without raising; otherwise `data.get("jql")`
(also `None` when the key is absent). -/
def get_filter_jql (resp : HttpResp) : Except PyErr JVal :=
  if resp.status ≠ 200 then .ok .null
  else pyGet resp.body "jql"

/-- `fetch_filter_issues(filter_id)` (lines 138-143): resolve the filter
to its JQL; a falsy JQL (`None` from a failed resolution, or an empty
string) yields `[]`; otherwise bound the JQL and fetch with
`max_results=500`. (`_ensure_bounded_jql` calls `.lower()` on the value,
which raises `AttributeError` on a truthy non-string.) -/
def fetch_filter_issues {α : Type} (cfg : Config) (fserver : String → HttpResp)
    (server : CursorRequest → CursorResponse α) (filter_id : String) : Except PyErr (List α) := do
  let jql ← get_filter_jql (fserver filter_id)
  if jql.truthy then
    match jql with
    | .str s => fetch_all_issues cfg server (some (_ensure_bounded_jql s)) 500
    | _ => .error .attributeError
  else
    .ok []

/-! ## Normalizer (`normalize_issue`, lines 146-166) -/

/-- Python `str()` conversion as used in the `f"{JIRA_URL}/browse/{...}"`
interpolation. Exact for the value shapes that can reach it in these
claims (`None` and strings; integers for completeness); the reprs of
containers are abbreviated, no claim evaluates them. -/
def pyStr : JVal → String
  | .null => "None"
  | .str s => s
  | .num n => toString n
  | .obj _ => "<dict>"
  | .arr _ => "<list>"

/-- The `x or {}` idiom of lines 149-153: keep a truthy value, replace a
falsy one by an empty dict. -/
def orElseEmptyDict (v : JVal) : JVal :=
  if v.truthy then v else .obj []

/-- The flat record built on lines 155-166. The field values are kept as
JSON-like values: the script's `dict.get` defaults only apply when a key
is absent, so a present `null` passes through for `summary`, `created`
and `updated`. -/
structure NormalizedIssue : Type where
  key : JVal
  summary : JVal
  status : JVal
  issuetype : JVal
  priority : JVal
  assignee : JVal
  project : JVal
  created : JVal
  updated : JVal
  url : String
deriving DecidableEq

/-- `normalize_issue(issue)` (lines 146-166), written as the sequence of
dict accesses the Python performs: first the five `or {}` bindings, then
the lookups of the result literal in source order. Any `.get` on a
non-dict raises (`Except.error`); otherwise the documented defaults are
substituted for absent keys. `jira_url` stands for the global `JIRA_URL`
used by the `url` field. -/
def normalize_issue (jira_url : String) (issue : JVal) : Except PyErr NormalizedIssue :=
  match pyGetD issue "fields" (.obj []) with
  | .error e => .error e
  | .ok fields =>
  match pyGet fields "status" with
  | .error e => .error e
  | .ok status0 =>
  match pyGet fields "issuetype" with
  | .error e => .error e
  | .ok issuetype0 =>
  match pyGet fields "priority" with
  | .error e => .error e
  | .ok priority0 =>
  match pyGet fields "assignee" with
  | .error e => .error e
  | .ok assignee0 =>
  match pyGet fields "project" with
  | .error e => .error e
  | .ok project0 =>
  let status := orElseEmptyDict status0
  let issuetype := orElseEmptyDict issuetype0
  let priority := orElseEmptyDict priority0
  let assignee := orElseEmptyDict assignee0
  let project := orElseEmptyDict project0
  match pyGetD issue "key" (.str "") with
  | .error e => .error e
  | .ok keyV =>
  match pyGetD fields "summary" (.str "") with
  | .error e => .error e
  | .ok summaryV =>
  match pyGetD status "name" (.str "Unknown") with
  | .error e => .error e
  | .ok statusV =>
  match pyGetD issuetype "name" (.str "Unknown") with
  | .error e => .error e
  | .ok issuetypeV =>
  match pyGetD priority "name" (.str "None") with
  | .error e => .error e
  | .ok priorityV =>
  match pyGetD assignee "displayName" (.str "Unassigned") with
  | .error e => .error e
  | .ok assigneeV =>
  match pyGetD project "key" (.str "") with
  | .error e => .error e
  | .ok projectV =>
  match pyGetD fields "created" (.str "") with
  | .error e => .error e
  | .ok createdV =>
  match pyGetD fields "updated" (.str "") with
  | .error e => .error e
  | .ok updatedV =>
  match pyGetD issue "key" (.str "") with
  | .error e => .error e
  | .ok keyV2 =>
    .ok { key := keyV, summary := summaryV, status := statusV, issuetype := issuetypeV,
          priority := priorityV, assignee := assigneeV, project := projectV,
          created := createdV, updated := updatedV,
          url := jira_url ++ "/browse/" ++ pyStr keyV2 }

/-! ## Aggregator (`aggregate_for_dashboard`, lines 169-193) -/

/-- `d[k] = d.get(k, 0) + 1` on a Python dict: bump the entry in place if
the key exists, append a fresh entry at the end otherwise. -/
def incr : List (JVal × Nat) → JVal → List (JVal × Nat)
  | [], k => [(k, 1)]
  | (k2, v) :: rest, k => if k = k2 then (k2, v + 1) :: rest else (k2, v) :: incr rest k

/-- The count stored for a key (0 when absent). -/
def dictGetCount (m : List (JVal × Nat)) (k : JVal) : Nat :=
  (alistGet m k).getD 0

/-- The sum of all counts of one frequency mapping. -/
def sumCounts (m : List (JVal × Nat)) : Nat :=
  (m.map Prod.snd).sum

/-- The four frequency mappings and the total returned on lines 187-193. -/
structure Aggregates : Type where
  by_status : List (JVal × Nat)
  by_type : List (JVal × Nat)
  by_assignee : List (JVal × Nat)
  by_priority : List (JVal × Nat)
  total : Nat

/-- One iteration of the `for issue in issues` loop (lines 176-185).
Normalized issues always carry the four keys, so the `issue.get(...)`
defaults of lines 177-180 never apply. -/
def aggStep (a : Aggregates) (i : NormalizedIssue) : Aggregates :=
  { a with by_status := incr a.by_status i.status,
           by_type := incr a.by_type i.issuetype,
           by_assignee := incr a.by_assignee i.assignee,
           by_priority := incr a.by_priority i.priority }

/-- `aggregate_for_dashboard(issues)` (lines 169-193): fold the increment
step over the issues starting from four empty dicts; `total` is
`len(issues)`. -/
def aggregate_for_dashboard (issues : List NormalizedIssue) : Aggregates :=
  issues.foldl aggStep
    { by_status := [], by_type := [], by_assignee := [], by_priority := [],
      total := issues.length }

/-! ## URL normalizer (`_normalize_jira_url`, lines 20-27)

`urllib.parse.urlparse` is modelled down to the three components the
script reads (`scheme`, `netloc`, `path`), following CPython's
`urlsplit`: an optional scheme (a leading ASCII letter followed by
letters, digits, `+`, `-`, `.`, then a colon; lowercased), a netloc
after a leading `//` running up to the next `/`, `?` or `#`, and the
path up to the query/fragment separators. The `;params` split of the
last path segment and the removal of stray control characters are not
modelled (no claim input contains them). -/

/-- Python `s.strip()`: drop leading and trailing whitespace (ASCII
whitespace; the claims' inputs contain none of the exotic Unicode space
characters where Python's `str.isspace` is wider). -/
def pyStrip (s : String) : String :=
  String.mk ((s.data.dropWhile Char.isWhitespace).reverse.dropWhile Char.isWhitespace).reverse

/-- Python `s.rstrip("/")`: drop every trailing slash. -/
def rstripSlash (s : String) : String :=
  String.mk (s.data.reverse.dropWhile (fun c => c = '/')).reverse

/-- Characters allowed in a URL scheme after the first. -/
def schemeChar (c : Char) : Bool :=
  c.isAlpha || c.isDigit || c = '+' || c = '-' || c = '.'

/-- Characters that terminate the netloc. -/
def netlocEnd (c : Char) : Bool :=
  c = '/' || c = '?' || c = '#'

/-- The `scheme`/`netloc`/`path` components of `urlparse`. -/
structure UrlParts : Type where
  scheme : String
  netloc : String
  path : String
deriving DecidableEq

/-- The scheme split of `urlsplit`: text before the first colon is the
scheme when it is nonempty, starts with an ASCII letter and consists of
scheme characters. Returns the (lowercased) scheme and the rest. -/
def splitScheme (cs : List Char) : String × List Char :=
  match cs.findIdx? (fun c => c = ':') with
  | some i =>
    if 0 < i && (cs.take i).all schemeChar &&
        (match cs with | c :: _ => c.isAlpha | [] => false) then
      (String.mk ((cs.take i).map Char.toLower), cs.drop (i + 1))
    else ("", cs)
  | none => ("", cs)

/-- `urllib.parse.urlparse`, restricted to the components the script
reads. -/
def urlparseModel (url : String) : UrlParts :=
  let (scheme, rest) := splitScheme url.data
  let (netloc, rest2) :=
    match rest with
    | '/' :: '/' :: tail =>
      (String.mk (tail.takeWhile (fun c => !netlocEnd c)), tail.dropWhile (fun c => !netlocEnd c))
    | _ => ("", rest)
  let noFrag := rest2.takeWhile (fun c => c ≠ '#')
  ⟨scheme, netloc, String.mk (noFrag.takeWhile (fun c => c ≠ '?'))⟩

/-- `path.split('/')[0]`: the first path segment. -/
def firstSegment (path : String) : String :=
  String.mk (path.data.takeWhile (fun c => c ≠ '/'))

/-- `_normalize_jira_url(url)` (lines 20-27): strip whitespace and
trailing slashes; empty input maps to `""`; otherwise rebuild
`scheme://host` where a missing scheme defaults to `https` and a missing
netloc is replaced by the first path segment, and strip trailing slashes
again. -/
def _normalize_jira_url (url : String) : String :=
  let url1 := rstripSlash (pyStrip url)
  if url1 = "" then ""
  else
    let parsed := urlparseModel url1
    let base := (if parsed.scheme = "" then "https" else parsed.scheme) ++ "://" ++
      (if parsed.netloc = "" then firstSegment parsed.path else parsed.netloc)
    rstripSlash base

/-! ## The driver (`main`, lines 196-232), fetch portion

`main` makes the unfiltered fetch, loops over the configured filter ids
normalizing each filter's issues, then normalizes and aggregates the
main issues. Raw issues are JSON values here. File writing and progress
printing are not modelled. -/

/-- The `for fid in filter_ids` loop of lines 206-209: each filter id is
fetched and its issues normalized; any raised exception aborts the run. -/
def processFilters (cfg : Config) (fserver : String → HttpResp)
    (server : CursorRequest → CursorResponse JVal) :
    List String → Except PyErr (List (String × List NormalizedIssue))
  | [] => .ok []
  | fid :: rest => do
    let filterIssues ← fetch_filter_issues cfg fserver server fid
    let norm ← filterIssues.mapM (normalize_issue cfg.jira_url)
    let restResults ← processFilters cfg fserver server rest
    .ok ((fid, norm) :: restResults)

/-- The fetch/normalize/aggregate portion of `main()` (lines 196-213), in
source order: unfiltered fetch (cap 1000), per-filter fetches, then
normalization and aggregation of the main issues. -/
def runPipeline (cfg : Config) (fserver : String → HttpResp)
    (server : CursorRequest → CursorResponse JVal) (filter_ids : List String) :
    Except PyErr (List NormalizedIssue × Aggregates × List (String × List NormalizedIssue)) := do
  let issues ← fetch_all_issues cfg server none 1000
  let filterResults ← processFilters cfg fserver server filter_ids
  let normalized ← issues.mapM (normalize_issue cfg.jira_url)
  .ok (normalized, aggregate_for_dashboard normalized, filterResults)

/-! ## Specification-side predicates

These state, in the spec's vocabulary, what the claims assert about the
loop traces and about raw issue shapes; they are compared against the
source-derived functions above. -/

/-- Spec wording of the cursor-mode loop (claim C2): starting from a
stored token and an accumulated count, each exchange carries the query,
a page size of `min(100, remaining budget)` and the (truthy) token of
the prior response; the loop stops exactly when the response omits a
continuation cursor (falsy token), returns zero records, or the
accumulated count reaches `max_results`. -/
def CursorLoopSpec {α : Type} (server : CursorRequest → CursorResponse α) (jql : String)
    (max_results : Nat) :
    Option String → Nat → List (CursorRequest × CursorResponse α) → Prop
  | _, count, [] => max_results ≤ count
  | token, count, (req, resp) :: rest =>
    count < max_results ∧
    req = ⟨jql, min 100 (max_results - count), optTokenParam token⟩ ∧
    resp = server req ∧
    ((tokenTruthy resp.nextPageToken = false ∨ resp.issues = [] ∨
        max_results ≤ count + resp.issues.length) → rest = []) ∧
    ((tokenTruthy resp.nextPageToken = true ∧ resp.issues ≠ [] ∧
        count + resp.issues.length < max_results) →
      CursorLoopSpec server jql max_results resp.nextPageToken (count + resp.issues.length) rest)

/-- A value on which Python's `.get` attribute access works after the
`or {}` idiom: either falsy (replaced by `{}`) or a dict. -/
def dictish (v : JVal) : Prop :=
  v.truthy = false ∨ ∃ vm, v = JVal.obj vm

/-- Shape of a raw issue record per the spec's data model (§3): the
`fields` sub-record, when present, is a dict, and each of the five
sub-fields the script treats as dicts is, when present, falsy or a dict.
`key`, `summary`, `created` and `updated` are unconstrained. -/
def fieldsShape (m : List (String × JVal)) : Prop :=
  alistGet m "fields" = none ∨
  ∃ fm, alistGet m "fields" = some (JVal.obj fm) ∧
    (∀ v, alistGet fm "status" = some v → dictish v) ∧
    (∀ v, alistGet fm "issuetype" = some v → dictish v) ∧
    (∀ v, alistGet fm "priority" = some v → dictish v) ∧
    (∀ v, alistGet fm "assignee" = some v → dictish v) ∧
    (∀ v, alistGet fm "project" = some v → dictish v)

/-- A raw issue record: a dict whose `fields` obey the data model. -/
def WellShapedRaw (issue : JVal) : Prop :=
  ∃ m, issue = JVal.obj m ∧ fieldsShape m

/-- The sub-field `k` of the `fields` sub-record of a raw issue dict
(`none` when `fields` is absent/not a dict or the key is missing). -/
def rawSub (m : List (String × JVal)) (k : String) : Option JVal :=
  match alistGet m "fields" with
  | some (.obj fm) => alistGet fm k
  | _ => none

/-! ## Concrete fixtures for the spec's example scenarios -/

/-- A fully configured Jira Cloud setup (API version 3, cursor mode). -/
def cfgCloud : Config :=
  { jira_url := "https://acme.atlassian.net", jira_email := "user@acme.example",
    jira_api_token := "secret-token",
    jira_jql_default := "updated >= -90d ORDER BY updated DESC", jira_api_version := "3" }

/-- The same setup with the API token unset. -/
def cfgNoToken : Config :=
  { cfgCloud with jira_api_token := "" }

/-- The same setup against a Jira Server (API version 2, offset mode). -/
def cfgServerV2 : Config :=
  { cfgCloud with jira_api_version := "2" }

/-- A mock server holding 300 records (numbered 0..299): each response
honours the requested page size, pages are addressed by a numeric cursor
encoded in the continuation token, and the token is omitted once the 300
records are exhausted. -/
def serverSupply300 : CursorRequest → CursorResponse Nat := fun req =>
  let start := (req.nextPageToken.bind String.toNat?).getD 0
  let page := ((List.range 300).drop start).take req.maxResults
  { status := 200, issues := page,
    nextPageToken :=
      if start + page.length < 300 then some (toString (start + page.length)) else none }

/-- A mock server returning 100 records per page for 3 pages and then no
continuation cursor (the spec's cursor-pagination scenario). -/
def serverThreePages : CursorRequest → CursorResponse Nat := fun req =>
  match req.nextPageToken with
  | none => { status := 200, issues := List.range' 0 100, nextPageToken := some "p1" }
  | some "p1" => { status := 200, issues := List.range' 100 100, nextPageToken := some "p2" }
  | some "p2" => { status := 200, issues := List.range' 200 100, nextPageToken := none }
  | some _ => { status := 200, issues := [], nextPageToken := none }

/-- A filter endpoint that fails to resolve every filter id (HTTP 404). -/
def fserver404 : String → HttpResp := fun _ => { status := 404, body := .null }

/-- A search server with nothing to return (one empty page, no cursor). -/
def serverEmptyJ : CursorRequest → CursorResponse JVal := fun _ =>
  { status := 200, issues := [], nextPageToken := none }

/-- A raw issue whose `fields` carries explicit `null` values. -/
def issueWithNulls : JVal :=
  .obj [("key", .str "AB-1"),
        ("fields", .obj [("status", .null), ("summary", .null),
                         ("created", .null), ("updated", .null)])]

/-! ## Lemmas about the cursor-mode loop -/

/-- The loop result is the accumulator followed by the concatenation of
the pages of its exchange trace, whenever the server only answers with
status 200. -/
theorem cursorLoop_eq_steps {α : Type} (server : CursorRequest → CursorResponse α)
    (jql : String) (mr : Nat) (h200 : ∀ r, (server r).status = 200) :
    ∀ (fuel : Nat) (token : Option String) (acc : List α),
      cursorLoop server jql mr fuel token acc =
        .ok (acc ++ ((cursorSteps server jql mr fuel token acc).map
          (fun p => p.2.issues)).flatten) := by
  intro fuel
  induction fuel with
  | zero =>
    intro token acc
    by_cases h : acc.length < mr <;> simp [cursorLoop, cursorSteps, h]
  | succ fuel ih =>
    intro token acc
    by_cases h : acc.length < mr
    · by_cases hc : tokenTruthy (server ⟨jql, min 100 (mr - acc.length),
          optTokenParam token⟩).nextPageToken &&
          !(server ⟨jql, min 100 (mr - acc.length), optTokenParam token⟩).issues.isEmpty
      · simp [cursorLoop, cursorSteps, h, h200, hc, ih, List.append_assoc]
      · simp [cursorLoop, cursorSteps, h, h200, hc]
    · simp [cursorLoop, cursorSteps, h]

/-- The trace is empty as soon as the accumulated count reaches the
budget, whatever fuel remains. -/
theorem cursorSteps_nil_of_ge {α : Type} (server : CursorRequest → CursorResponse α)
    (jql : String) (mr : Nat) (acc : List α) (h : ¬ acc.length < mr) :
    ∀ (fuel : Nat) (token : Option String),
      cursorSteps server jql mr fuel token acc = [] := by
  intro fuel token
  cases fuel <;> simp [cursorSteps, h]

/-- With adequate fuel (more than the remaining budget) and a
status-200 server, the exchange trace of the loop satisfies the
spec-side description `CursorLoopSpec`. -/
theorem cursorSteps_spec {α : Type} (server : CursorRequest → CursorResponse α)
    (jql : String) (mr : Nat) (h200 : ∀ r, (server r).status = 200) :
    ∀ (fuel : Nat) (token : Option String) (acc : List α), mr ≤ acc.length + fuel →
      CursorLoopSpec server jql mr token acc.length
        (cursorSteps server jql mr fuel token acc) := by
  intro fuel
  induction fuel with
  | zero =>
    intro token acc hfuel
    have h : ¬ acc.length < mr := by omega
    have hempty : cursorSteps server jql mr 0 token acc = [] := by
      simp [cursorSteps, h]
    rw [hempty]
    show mr ≤ acc.length
    omega
  | succ fuel ih =>
    intro token acc hfuel
    by_cases h : acc.length < mr
    · have hunfold : cursorSteps server jql mr (fuel + 1) token acc =
          (if (server ⟨jql, min 100 (mr - acc.length), optTokenParam token⟩).status ≠ 200 then
            [(⟨jql, min 100 (mr - acc.length), optTokenParam token⟩,
              server ⟨jql, min 100 (mr - acc.length), optTokenParam token⟩)]
          else if tokenTruthy (server ⟨jql, min 100 (mr - acc.length),
                optTokenParam token⟩).nextPageToken &&
              !(server ⟨jql, min 100 (mr - acc.length), optTokenParam token⟩).issues.isEmpty then
            (⟨jql, min 100 (mr - acc.length), optTokenParam token⟩,
              server ⟨jql, min 100 (mr - acc.length), optTokenParam token⟩) ::
              cursorSteps server jql mr fuel
                (server ⟨jql, min 100 (mr - acc.length), optTokenParam token⟩).nextPageToken
                (acc ++ (server ⟨jql, min 100 (mr - acc.length), optTokenParam token⟩).issues)
          else
            [(⟨jql, min 100 (mr - acc.length), optTokenParam token⟩,
              server ⟨jql, min 100 (mr - acc.length), optTokenParam token⟩)]) := by
        simp [cursorSteps, h]
      rw [hunfold, if_neg (by simp [h200])]
      by_cases hc : tokenTruthy (server ⟨jql, min 100 (mr - acc.length),
            optTokenParam token⟩).nextPageToken &&
          !(server ⟨jql, min 100 (mr - acc.length), optTokenParam token⟩).issues.isEmpty
      · have hne : (server ⟨jql, min 100 (mr - acc.length), optTokenParam token⟩).issues ≠ [] := by
          intro hnil
          simp [hnil] at hc
        have htok : tokenTruthy (server ⟨jql, min 100 (mr - acc.length),
            optTokenParam token⟩).nextPageToken = true := (Bool.and_eq_true_iff.mp hc).1
        rw [if_pos hc]
        refine ⟨h, rfl, rfl, ?_, ?_⟩
        · rintro (h1 | h1 | h1)
          · rw [htok] at h1; cases h1
          · exact absurd h1 hne
          · have hlen : ¬ ((acc ++ (server ⟨jql, min 100 (mr - acc.length),
                optTokenParam token⟩).issues).length < mr) := by
              rw [List.length_append]; omega
            exact cursorSteps_nil_of_ge server jql mr _ hlen fuel _
        · rintro ⟨_, _, hlt⟩
          have hpos : 0 < (server ⟨jql, min 100 (mr - acc.length),
              optTokenParam token⟩).issues.length := List.length_pos.mpr hne
          have := ih ((server ⟨jql, min 100 (mr - acc.length),
              optTokenParam token⟩).nextPageToken)
            (acc ++ (server ⟨jql, min 100 (mr - acc.length), optTokenParam token⟩).issues)
            (by rw [List.length_append]; omega)
          rwa [List.length_append] at this
      · rw [if_neg hc]
        refine ⟨h, rfl, rfl, fun _ => rfl, ?_⟩
        rintro ⟨h1, h2, _⟩
        rw [Bool.not_eq_true, Bool.and_eq_false_iff] at hc
        rcases hc with hc | hc
        · rw [h1] at hc; cases hc
        · rw [Bool.not_eq_false'] at hc
          exact absurd (List.isEmpty_iff.mp hc) h2
    · have hempty : cursorSteps server jql mr (fuel + 1) token acc = [] := by
        simp [cursorSteps, h]
      rw [hempty]
      show mr ≤ acc.length
      omega

/-! ## Claim theorems: fetching -/

set_option maxRecDepth 10000 in
/-- C1: for every query string and max_results value and every sequence
of (status-200) server page responses, `fetch_all_issues` in cursor mode
returns the prefix of length at most `max_results` of the records the
server supplied, in upstream order; and against a server holding 300
records, `max_results = 50` returns exactly the first 50. -/
theorem c1_fetch_respects_cap_and_order :
    (∀ (α : Type) (cfg : Config) (server : CursorRequest → CursorResponse α)
        (jql : String) (mr : Nat),
      pyAllSet cfg = true → cfg.jira_api_version = "3" →
      (∀ r, (server r).status = 200) →
      fetch_all_issues cfg server (some jql) mr =
        .ok ((servedIssues server jql mr).take mr) ∧
      ∀ out, fetch_all_issues cfg server (some jql) mr = .ok out → out.length ≤ mr) ∧
    fetch_all_issues cfgCloud serverSupply300 (some "project = ABC") 50 =
      .ok (List.range 50) := by
  constructor
  · intro α cfg server jql mr hset hver h200
    have hloop := cursorLoop_eq_steps server jql mr h200 (mr + 1) none []
    have h1 : fetch_all_issues cfg server (some jql) mr =
        .ok ((servedIssues server jql mr).take mr) := by
      simp [fetch_all_issues, hset, hver, hloop, servedIssues, Except.map]
    refine ⟨h1, ?_⟩
    intro out hout
    rw [h1] at hout
    cases hout
    simp [List.length_take]
  · decide

set_option maxRecDepth 10000 in
/-- Witness for C1, at a concrete configuration, server, query and cap. -/
theorem c1_fetch_respects_cap_and_order_witness :
    pyAllSet cfgCloud = true ∧ cfgCloud.jira_api_version = "3" ∧
    (fetch_all_issues cfgCloud serverSupply300 (some "assignee = bob") 7 =
        .ok ((servedIssues serverSupply300 "assignee = bob" 7).take 7) ∧
      ∀ out, fetch_all_issues cfgCloud serverSupply300 (some "assignee = bob") 7 = .ok out →
        out.length ≤ 7) :=
  ⟨by decide, rfl,
    c1_fetch_respects_cap_and_order.1 Nat cfgCloud serverSupply300 "assignee = bob" 7
      (by decide) rfl (fun _ => rfl)⟩

set_option maxRecDepth 10000 in
/-- C2: in cursor mode the loop's exchange trace satisfies the spec-side
description (each request carries the query, page size
`min(100, remaining)`, and the prior response's token; it stops exactly
on a falsy cursor, an empty page, or a filled budget); and the spec's
3-page scenario returns all 300 records in order. -/
theorem c2_cursor_pagination :
    (∀ (α : Type) (server : CursorRequest → CursorResponse α) (jql : String) (mr : Nat),
      (∀ r, (server r).status = 200) →
      CursorLoopSpec server jql mr none 0 (cursorSteps server jql mr (mr + 1) none [])) ∧
    fetch_all_issues cfgCloud serverThreePages (some "order by updated") 1000 =
      .ok (List.range 300) := by
  constructor
  · intro α server jql mr h200
    have h := cursorSteps_spec server jql mr h200 (mr + 1) none []
      (by have hnil : ([] : List α).length = 0 := rfl
          omega)
    exact h
  · decide

/-- Witness for C2: the trace specification holds at a concrete server. -/
theorem c2_cursor_pagination_witness :
    CursorLoopSpec serverEmptyJ "updated >= -7d" 5 none 0
      (cursorSteps serverEmptyJ "updated >= -7d" 5 6 none []) :=
  c2_cursor_pagination.1 JVal serverEmptyJ "updated >= -7d" 5 (fun _ => rfl)

/-- C3: with any API version other than `"3"` (offset mode) and a
complete configuration, `fetch_all_issues` raises `NameError` on the
unbound `headers` at line 106 before issuing any request — the
offset-mode pagination the claim describes is never executed. -/
theorem c3_offset_mode_name_error {α : Type} (cfg : Config)
    (server : CursorRequest → CursorResponse α) (jqlArg : Option String) (mr : Nat)
    (hset : pyAllSet cfg = true) (hver : cfg.jira_api_version ≠ "3") :
    fetch_all_issues cfg server jqlArg mr = .error (.nameError "headers") ∧
    fetch_requests cfg server jqlArg mr = [] := by
  constructor
  · simp [fetch_all_issues, hset, hver]
  · simp [fetch_requests, hset, hver]

/-- Witness for C3, at the API-version-2 configuration. -/
theorem c3_offset_mode_name_error_witness :
    pyAllSet cfgServerV2 = true ∧ cfgServerV2.jira_api_version ≠ "3" ∧
    (fetch_all_issues cfgServerV2 serverEmptyJ none 1000 = .error (.nameError "headers") ∧
      fetch_requests cfgServerV2 serverEmptyJ none 1000 = []) :=
  ⟨by decide, by decide,
    c3_offset_mode_name_error cfgServerV2 serverEmptyJ none 1000 (by decide) (by decide)⟩

/-- C8: with any of the three required connection parameters unset,
every call of the issue fetcher exits the process with code 1, issues no
HTTP request, and the whole pipeline run terminates with that exit. -/
theorem c8_missing_config_exits_before_any_request {α : Type} (cfg : Config)
    (server : CursorRequest → CursorResponse α)
    (serverJ : CursorRequest → CursorResponse JVal) (fserver : String → HttpResp)
    (jqlArg : Option String) (mr : Nat) (fids : List String)
    (hset : pyAllSet cfg = false) :
    fetch_all_issues cfg server jqlArg mr = .error (.systemExit 1) ∧
    fetch_requests cfg server jqlArg mr = [] ∧
    runPipeline cfg fserver serverJ fids = .error (.systemExit 1) := by
  refine ⟨?_, ?_, ?_⟩
  · simp [fetch_all_issues, hset]
  · simp [fetch_requests, hset]
  · simp [runPipeline, fetch_all_issues, hset, Bind.bind, Except.bind]

/-- Witness for C8, with the API token unset. -/
theorem c8_missing_config_exits_before_any_request_witness :
    pyAllSet cfgNoToken = false ∧
    (fetch_all_issues cfgNoToken serverEmptyJ none 1000 = .error (.systemExit 1) ∧
      fetch_requests cfgNoToken serverEmptyJ none 1000 = [] ∧
      runPipeline cfgNoToken fserver404 serverEmptyJ ["10001"] = .error (.systemExit 1)) :=
  ⟨by decide,
    c8_missing_config_exits_before_any_request cfgNoToken serverEmptyJ serverEmptyJ
      fserver404 none 1000 ["10001"] (by decide)⟩

/-! ## Claim theorems: normalization -/

/-- After the `or {}` idiom, a lookup with a default on a dictish-or-
absent value succeeds; an absent or `null` original yields the default. -/
theorem pyGetD_orElse_ok (o : Option JVal) (h : ∀ v, o = some v → dictish v)
    (nm : String) (df : JVal) :
    ∃ w, pyGetD (orElseEmptyDict (o.getD .null)) nm df = .ok w ∧
      (o = none → w = df) ∧ (o = some .null → w = df) := by
  cases o with
  | none =>
    refine ⟨df, ?_, fun _ => rfl, fun hc => Option.noConfusion hc⟩
    simp [orElseEmptyDict, JVal.truthy, pyGetD, alistGet]
  | some v =>
    by_cases ht : v.truthy = true
    · rcases h v rfl with hf | ⟨vm, rfl⟩
      · rw [ht] at hf; cases hf
      · refine ⟨(alistGet vm nm).getD df, ?_, ?_, ?_⟩
        · simp [orElseEmptyDict, ht, pyGetD]
        · intro hc; exact Option.noConfusion hc
        · intro hc; exact Option.noConfusion hc (fun h1 => JVal.noConfusion h1)
    · refine ⟨df, ?_, fun _ => rfl, fun _ => rfl⟩
      rw [Bool.not_eq_true] at ht
      simp [orElseEmptyDict, ht, pyGetD, alistGet]

/-- Unpacking of `fieldsShape`: whether `fields` is absent (defaulting to
`{}`) or a present dict, there is an entry list `fm` such that the
script's `fields` value is `.obj fm`, sub-field lookups in the raw issue
coincide with lookups in `fm`, and the five dict-expected sub-fields of
`fm` are dictish when present. -/
theorem fieldsShape_elim {m : List (String × JVal)} (h : fieldsShape m) :
    ∃ fm, (alistGet m "fields").getD (JVal.obj []) = JVal.obj fm ∧
      (∀ k, rawSub m k = alistGet fm k) ∧
      (∀ v, alistGet fm "status" = some v → dictish v) ∧
      (∀ v, alistGet fm "issuetype" = some v → dictish v) ∧
      (∀ v, alistGet fm "priority" = some v → dictish v) ∧
      (∀ v, alistGet fm "assignee" = some v → dictish v) ∧
      (∀ v, alistGet fm "project" = some v → dictish v) := by
  rcases h with h | ⟨fm, hfm, h1, h2, h3, h4, h5⟩
  · refine ⟨[], by simp [h], fun k => by simp [rawSub, h, alistGet], ?_, ?_, ?_, ?_, ?_⟩ <;>
      intro v hv <;> simp [alistGet] at hv
  · exact ⟨fm, by simp [hfm], fun k => by simp [rawSub, hfm], h1, h2, h3, h4, h5⟩

/-- Core normalization lemma: on a raw issue dict with well-shaped
`fields`, `normalize_issue` succeeds, and each output field is the
corresponding lookup with the documented default (with absent-or-null
dict-expected sub-fields yielding their defaults). -/
theorem normalize_ok_spec (u : String) (m : List (String × JVal)) (h : fieldsShape m) :
    ∃ out fm, (alistGet m "fields").getD (JVal.obj []) = JVal.obj fm ∧
      (∀ k, rawSub m k = alistGet fm k) ∧
      normalize_issue u (JVal.obj m) = .ok out ∧
      out.key = (alistGet m "key").getD (JVal.str "") ∧
      out.summary = (alistGet fm "summary").getD (JVal.str "") ∧
      out.created = (alistGet fm "created").getD (JVal.str "") ∧
      out.updated = (alistGet fm "updated").getD (JVal.str "") ∧
      (alistGet fm "status" = none → out.status = .str "Unknown") ∧
      (alistGet fm "status" = some .null → out.status = .str "Unknown") ∧
      (alistGet fm "issuetype" = none → out.issuetype = .str "Unknown") ∧
      (alistGet fm "issuetype" = some .null → out.issuetype = .str "Unknown") ∧
      (alistGet fm "priority" = none → out.priority = .str "None") ∧
      (alistGet fm "priority" = some .null → out.priority = .str "None") ∧
      (alistGet fm "assignee" = none → out.assignee = .str "Unassigned") ∧
      (alistGet fm "assignee" = some .null → out.assignee = .str "Unassigned") ∧
      (alistGet fm "project" = none → out.project = .str "") ∧
      (alistGet fm "project" = some .null → out.project = .str "") := by
  obtain ⟨fm, hfm, hsub, hd1, hd2, hd3, hd4, hd5⟩ := fieldsShape_elim h
  obtain ⟨w1, hw1, hw1n, hw1nul⟩ :=
    pyGetD_orElse_ok (alistGet fm "status") hd1 "name" (.str "Unknown")
  obtain ⟨w2, hw2, hw2n, hw2nul⟩ :=
    pyGetD_orElse_ok (alistGet fm "issuetype") hd2 "name" (.str "Unknown")
  obtain ⟨w3, hw3, hw3n, hw3nul⟩ :=
    pyGetD_orElse_ok (alistGet fm "priority") hd3 "name" (.str "None")
  obtain ⟨w4, hw4, hw4n, hw4nul⟩ :=
    pyGetD_orElse_ok (alistGet fm "assignee") hd4 "displayName" (.str "Unassigned")
  obtain ⟨w5, hw5, hw5n, hw5nul⟩ :=
    pyGetD_orElse_ok (alistGet fm "project") hd5 "key" (.str "")
  have e1 : pyGetD (JVal.obj m) "fields" (JVal.obj []) = .ok (JVal.obj fm) := by
    simp [pyGetD, hfm]
  have e2 : pyGet (JVal.obj fm) "status" = .ok ((alistGet fm "status").getD .null) := by
    simp [pyGet, pyGetD]
  have e3 : pyGet (JVal.obj fm) "issuetype" = .ok ((alistGet fm "issuetype").getD .null) := by
    simp [pyGet, pyGetD]
  have e4 : pyGet (JVal.obj fm) "priority" = .ok ((alistGet fm "priority").getD .null) := by
    simp [pyGet, pyGetD]
  have e5 : pyGet (JVal.obj fm) "assignee" = .ok ((alistGet fm "assignee").getD .null) := by
    simp [pyGet, pyGetD]
  have e6 : pyGet (JVal.obj fm) "project" = .ok ((alistGet fm "project").getD .null) := by
    simp [pyGet, pyGetD]
  have e7 : pyGetD (JVal.obj m) "key" (JVal.str "") = .ok ((alistGet m "key").getD (.str "")) := by
    simp [pyGetD]
  have e8 : pyGetD (JVal.obj fm) "summary" (JVal.str "") =
      .ok ((alistGet fm "summary").getD (.str "")) := by
    simp [pyGetD]
  have e9 : pyGetD (JVal.obj fm) "created" (JVal.str "") =
      .ok ((alistGet fm "created").getD (.str "")) := by
    simp [pyGetD]
  have e10 : pyGetD (JVal.obj fm) "updated" (JVal.str "") =
      .ok ((alistGet fm "updated").getD (.str "")) := by
    simp [pyGetD]
  refine ⟨⟨(alistGet m "key").getD (.str ""), (alistGet fm "summary").getD (.str ""),
      w1, w2, w3, w4, w5,
      (alistGet fm "created").getD (.str ""), (alistGet fm "updated").getD (.str ""),
      u ++ "/browse/" ++ pyStr ((alistGet m "key").getD (.str ""))⟩, fm, hfm, hsub, ?_,
    rfl, rfl, rfl, rfl, hw1n, hw1nul, hw2n, hw2nul, hw3n, hw3nul, hw4n, hw4nul, hw5n, hw5nul⟩
  simp only [normalize_issue, e1, e2, e3, e4, e5, e6, e7, e8, e9, e10, hw1, hw2, hw3, hw4, hw5]

/-- C4: a raw issue record with any optional sub-field absent (including
the whole `fields` sub-record) normalizes without raising, and every
absent field receives its documented default: status `"Unknown"`, issue
type `"Unknown"`, priority `"None"`, assignee `"Unassigned"`, project
`""`, created/updated `""`, summary `""`, key `""`. -/
theorem c4_normalize_missing_defaults (u : String) (issue : JVal) (h : WellShapedRaw issue) :
    ∃ out, normalize_issue u issue = .ok out ∧
      ∀ m, issue = JVal.obj m →
        ((alistGet m "key" = none → out.key = .str "") ∧
         (rawSub m "summary" = none → out.summary = .str "") ∧
         (rawSub m "status" = none → out.status = .str "Unknown") ∧
         (rawSub m "issuetype" = none → out.issuetype = .str "Unknown") ∧
         (rawSub m "priority" = none → out.priority = .str "None") ∧
         (rawSub m "assignee" = none → out.assignee = .str "Unassigned") ∧
         (rawSub m "project" = none → out.project = .str "") ∧
         (rawSub m "created" = none → out.created = .str "") ∧
         (rawSub m "updated" = none → out.updated = .str "")) := by
  obtain ⟨m, rfl, hfs⟩ := h
  obtain ⟨out, fm, hfm, hsub, hnorm, hkey, hsummary, hcreated, hupdated,
    hs1, hs2, ht1, ht2, hp1, hp2, ha1, ha2, hj1, hj2⟩ := normalize_ok_spec u m hfs
  refine ⟨out, hnorm, ?_⟩
  intro m2 hm2
  injection hm2 with hmm
  subst hmm
  refine ⟨?_, ?_, ?_, ?_, ?_, ?_, ?_, ?_, ?_⟩
  · intro hk; rw [hkey, hk]; rfl
  · intro hk; rw [hsummary, (hsub "summary").symm.trans hk]; rfl
  · intro hk; exact hs1 ((hsub "status").symm.trans hk)
  · intro hk; exact ht1 ((hsub "issuetype").symm.trans hk)
  · intro hk; exact hp1 ((hsub "priority").symm.trans hk)
  · intro hk; exact ha1 ((hsub "assignee").symm.trans hk)
  · intro hk; exact hj1 ((hsub "project").symm.trans hk)
  · intro hk; rw [hcreated, (hsub "created").symm.trans hk]; rfl
  · intro hk; rw [hupdated, (hsub "updated").symm.trans hk]; rfl

/-- Witness for C4: the empty raw record normalizes and gets the
defaults. -/
theorem c4_normalize_missing_defaults_witness :
    WellShapedRaw (JVal.obj []) ∧
    ∃ out, normalize_issue "https://acme.atlassian.net" (JVal.obj []) = .ok out ∧
      ∀ m, JVal.obj [] = JVal.obj m →
        ((alistGet m "key" = none → out.key = .str "") ∧
         (rawSub m "summary" = none → out.summary = .str "") ∧
         (rawSub m "status" = none → out.status = .str "Unknown") ∧
         (rawSub m "issuetype" = none → out.issuetype = .str "Unknown") ∧
         (rawSub m "priority" = none → out.priority = .str "None") ∧
         (rawSub m "assignee" = none → out.assignee = .str "Unassigned") ∧
         (rawSub m "project" = none → out.project = .str "") ∧
         (rawSub m "created" = none → out.created = .str "") ∧
         (rawSub m "updated" = none → out.updated = .str "")) :=
  ⟨⟨[], rfl, Or.inl rfl⟩,
    c4_normalize_missing_defaults "https://acme.atlassian.net" (JVal.obj [])
      ⟨[], rfl, Or.inl rfl⟩⟩

/-- C10: a raw issue whose dict-expected sub-fields (status, issuetype,
priority, assignee, project) are present with an explicit `null` still
normalizes to the documented defaults without raising, while an explicit
`null` for summary, created or updated passes through as `null` rather
than becoming the empty-string default. -/
theorem c10_normalize_explicit_nulls (u : String) (issue : JVal) (h : WellShapedRaw issue) :
    ∃ out, normalize_issue u issue = .ok out ∧
      ∀ m, issue = JVal.obj m →
        ((rawSub m "status" = some .null → out.status = .str "Unknown") ∧
         (rawSub m "issuetype" = some .null → out.issuetype = .str "Unknown") ∧
         (rawSub m "priority" = some .null → out.priority = .str "None") ∧
         (rawSub m "assignee" = some .null → out.assignee = .str "Unassigned") ∧
         (rawSub m "project" = some .null → out.project = .str "") ∧
         (rawSub m "summary" = some .null → out.summary = .null) ∧
         (rawSub m "created" = some .null → out.created = .null) ∧
         (rawSub m "updated" = some .null → out.updated = .null)) := by
  obtain ⟨m, rfl, hfs⟩ := h
  obtain ⟨out, fm, hfm, hsub, hnorm, hkey, hsummary, hcreated, hupdated,
    hs1, hs2, ht1, ht2, hp1, hp2, ha1, ha2, hj1, hj2⟩ := normalize_ok_spec u m hfs
  refine ⟨out, hnorm, ?_⟩
  intro m2 hm2
  injection hm2 with hmm
  subst hmm
  refine ⟨?_, ?_, ?_, ?_, ?_, ?_, ?_, ?_⟩
  · intro hk; exact hs2 ((hsub "status").symm.trans hk)
  · intro hk; exact ht2 ((hsub "issuetype").symm.trans hk)
  · intro hk; exact hp2 ((hsub "priority").symm.trans hk)
  · intro hk; exact ha2 ((hsub "assignee").symm.trans hk)
  · intro hk; exact hj2 ((hsub "project").symm.trans hk)
  · intro hk; rw [hsummary, (hsub "summary").symm.trans hk]; rfl
  · intro hk; rw [hcreated, (hsub "created").symm.trans hk]; rfl
  · intro hk; rw [hupdated, (hsub "updated").symm.trans hk]; rfl

/-! ## Claim theorems: aggregation -/

/-- One increment adds exactly 1 to the sum of the counts. -/
theorem sumCounts_incr (m : List (JVal × Nat)) (k : JVal) :
    sumCounts (incr m k) = sumCounts m + 1 := by
  induction m with
  | nil => simp [incr, sumCounts]
  | cons p rest ih =>
    obtain ⟨k2, v⟩ := p
    by_cases hk : k = k2
    · simp [incr, hk, sumCounts]
      omega
    · simp only [incr, hk, if_false, ite_false, sumCounts, List.map_cons, List.sum_cons]
      rw [show ((incr rest k).map Prod.snd).sum = sumCounts (incr rest k) from rfl, ih]
      show v + sumCounts rest + 1 = v + sumCounts rest + 1
      rfl

/-- One increment bumps the incremented key's count by 1. -/
theorem dictGetCount_incr_self (m : List (JVal × Nat)) (k : JVal) :
    dictGetCount (incr m k) k = dictGetCount m k + 1 := by
  induction m with
  | nil => simp [incr, dictGetCount, alistGet]
  | cons p rest ih =>
    obtain ⟨k2, v⟩ := p
    by_cases hk : k = k2
    · simp [incr, hk, dictGetCount, alistGet]
    · have h1 : incr ((k2, v) :: rest) k = (k2, v) :: incr rest k := by simp [incr, hk]
      simp only [dictGetCount] at ih ⊢
      rw [h1]
      simp [alistGet, hk]
      exact ih

/-- One increment leaves every other key's count unchanged. -/
theorem dictGetCount_incr_other (m : List (JVal × Nat)) (k k2 : JVal) (hne : k ≠ k2) :
    dictGetCount (incr m k2) k = dictGetCount m k := by
  induction m with
  | nil => simp [incr, dictGetCount, alistGet, hne]
  | cons p rest ih =>
    obtain ⟨k3, v⟩ := p
    by_cases h3 : k2 = k3
    · have hk3 : k ≠ k3 := by rw [← h3]; exact hne
      simp [incr, h3, dictGetCount, alistGet, hk3]
    · by_cases hk3 : k = k3
      · simp [incr, h3, dictGetCount, alistGet, hk3]
      · simp [incr, h3, dictGetCount, alistGet, hk3] at ih ⊢
        exact ih

/-- The status map of the fold is a fold of increments over statuses. -/
theorem foldl_aggStep_status (issues : List NormalizedIssue) :
    ∀ a, (issues.foldl aggStep a).by_status =
      issues.foldl (fun m i => incr m i.status) a.by_status := by
  induction issues with
  | nil => intro a; rfl
  | cons i rest ih => intro a; simp only [List.foldl_cons, ih, aggStep]

/-- The type map of the fold is a fold of increments over issue types. -/
theorem foldl_aggStep_type (issues : List NormalizedIssue) :
    ∀ a, (issues.foldl aggStep a).by_type =
      issues.foldl (fun m i => incr m i.issuetype) a.by_type := by
  induction issues with
  | nil => intro a; rfl
  | cons i rest ih => intro a; simp only [List.foldl_cons, ih, aggStep]

/-- The assignee map of the fold is a fold of increments over assignees. -/
theorem foldl_aggStep_assignee (issues : List NormalizedIssue) :
    ∀ a, (issues.foldl aggStep a).by_assignee =
      issues.foldl (fun m i => incr m i.assignee) a.by_assignee := by
  induction issues with
  | nil => intro a; rfl
  | cons i rest ih => intro a; simp only [List.foldl_cons, ih, aggStep]

/-- The priority map of the fold is a fold of increments over priorities. -/
theorem foldl_aggStep_priority (issues : List NormalizedIssue) :
    ∀ a, (issues.foldl aggStep a).by_priority =
      issues.foldl (fun m i => incr m i.priority) a.by_priority := by
  induction issues with
  | nil => intro a; rfl
  | cons i rest ih => intro a; simp only [List.foldl_cons, ih, aggStep]

/-- The fold never touches `total`. -/
theorem foldl_aggStep_total (issues : List NormalizedIssue) :
    ∀ a, (issues.foldl aggStep a).total = a.total := by
  induction issues with
  | nil => intro a; rfl
  | cons i rest ih => intro a; simp only [List.foldl_cons, ih, aggStep]

/-- Folding increments adds the list length to the sum of the counts. -/
theorem sumCounts_foldl_incr {β : Type} (f : β → JVal) (issues : List β) :
    ∀ m, sumCounts (issues.foldl (fun acc i => incr acc (f i)) m) =
      sumCounts m + issues.length := by
  induction issues with
  | nil => intro m; simp
  | cons i rest ih =>
    intro m
    simp only [List.foldl_cons, List.length_cons, ih, sumCounts_incr]
    omega

/-- Folding increments adds, at each key, the number of elements mapped
to that key. -/
theorem dictGetCount_foldl_incr {β : Type} (f : β → JVal) (k : JVal) (issues : List β) :
    ∀ m, dictGetCount (issues.foldl (fun acc i => incr acc (f i)) m) k =
      dictGetCount m k + issues.countP (fun i => decide (f i = k)) := by
  induction issues with
  | nil => intro m; simp
  | cons i rest ih =>
    intro m
    by_cases hk : f i = k
    · simp only [List.foldl_cons, ih, List.countP_cons, hk, dictGetCount_incr_self]
      rw [show (if decide True = true then 1 else 0) = 1 from rfl]
      omega
    · have hne : k ≠ f i := fun hc => hk hc.symm
      simp only [List.foldl_cons, ih, List.countP_cons]
      rw [dictGetCount_incr_other _ _ _ hne,
        if_neg (by simp [hk] : ¬ decide (f i = k) = true)]
      omega

/-- C5: `aggregate_for_dashboard` returns a total equal to the length of
the input sequence; each of the four mappings counts, at every key,
exactly the issues whose corresponding normalized field equals that key
(one increment per issue); and the sum of the values of each of the four
mappings equals the total. -/
theorem c5_aggregate_totals (issues : List NormalizedIssue) :
    (aggregate_for_dashboard issues).total = issues.length ∧
    sumCounts (aggregate_for_dashboard issues).by_status = (aggregate_for_dashboard issues).total ∧
    sumCounts (aggregate_for_dashboard issues).by_type = (aggregate_for_dashboard issues).total ∧
    sumCounts (aggregate_for_dashboard issues).by_assignee =
      (aggregate_for_dashboard issues).total ∧
    sumCounts (aggregate_for_dashboard issues).by_priority =
      (aggregate_for_dashboard issues).total ∧
    (∀ k, dictGetCount (aggregate_for_dashboard issues).by_status k =
      issues.countP (fun i => decide (i.status = k))) ∧
    (∀ k, dictGetCount (aggregate_for_dashboard issues).by_type k =
      issues.countP (fun i => decide (i.issuetype = k))) ∧
    (∀ k, dictGetCount (aggregate_for_dashboard issues).by_assignee k =
      issues.countP (fun i => decide (i.assignee = k))) ∧
    (∀ k, dictGetCount (aggregate_for_dashboard issues).by_priority k =
      issues.countP (fun i => decide (i.priority = k))) := by
  have htotal : (aggregate_for_dashboard issues).total = issues.length := by
    simp [aggregate_for_dashboard, foldl_aggStep_total]
  have hst : (aggregate_for_dashboard issues).by_status =
      issues.foldl (fun m i => incr m i.status) [] := by
    simp [aggregate_for_dashboard, foldl_aggStep_status]
  have hty : (aggregate_for_dashboard issues).by_type =
      issues.foldl (fun m i => incr m i.issuetype) [] := by
    simp [aggregate_for_dashboard, foldl_aggStep_type]
  have has : (aggregate_for_dashboard issues).by_assignee =
      issues.foldl (fun m i => incr m i.assignee) [] := by
    simp [aggregate_for_dashboard, foldl_aggStep_assignee]
  have hpr : (aggregate_for_dashboard issues).by_priority =
      issues.foldl (fun m i => incr m i.priority) [] := by
    simp [aggregate_for_dashboard, foldl_aggStep_priority]
  refine ⟨htotal, ?_, ?_, ?_, ?_, ?_, ?_, ?_, ?_⟩
  · rw [htotal, hst, sumCounts_foldl_incr (fun i => i.status) issues []]
    simp [sumCounts]
  · rw [htotal, hty, sumCounts_foldl_incr (fun i => i.issuetype) issues []]
    simp [sumCounts]
  · rw [htotal, has, sumCounts_foldl_incr (fun i => i.assignee) issues []]
    simp [sumCounts]
  · rw [htotal, hpr, sumCounts_foldl_incr (fun i => i.priority) issues []]
    simp [sumCounts]
  · intro k
    rw [hst, dictGetCount_foldl_incr (fun i => i.status) k issues []]
    simp [dictGetCount, alistGet]
  · intro k
    rw [hty, dictGetCount_foldl_incr (fun i => i.issuetype) k issues []]
    simp [dictGetCount, alistGet]
  · intro k
    rw [has, dictGetCount_foldl_incr (fun i => i.assignee) k issues []]
    simp [dictGetCount, alistGet]
  · intro k
    rw [hpr, dictGetCount_foldl_incr (fun i => i.priority) k issues []]
    simp [dictGetCount, alistGet]

/-! ## Claim theorems: bounded JQL and URL normalization -/

/-- C7: `_ensure_bounded_jql` checks the lowercased query for the three
recency keywords; with none present it conjoins the fixed 90-day bound,
with any present it returns the query unchanged; and the two spec
examples behave as documented. -/
theorem c7_bounded_jql :
    (∀ jql : String,
      (∀ kw ∈ ["updated", "created", "resolved"], containsSub kw (pyLower jql) = false) →
      _ensure_bounded_jql jql = "(" ++ jql ++ ") AND updated >= -90d") ∧
    (∀ jql kw : String, kw ∈ ["updated", "created", "resolved"] →
      containsSub kw (pyLower jql) = true → _ensure_bounded_jql jql = jql) ∧
    _ensure_bounded_jql "project = ABC" = "(project = ABC) AND updated >= -90d" ∧
    _ensure_bounded_jql "updated >= -7d" = "updated >= -7d" := by
  refine ⟨?_, ?_, rfl, rfl⟩
  · intro jql h
    have h1 := h "updated" (by simp)
    have h2 := h "created" (by simp)
    have h3 := h "resolved" (by simp)
    simp [_ensure_bounded_jql, h1, h2, h3]
  · intro jql kw hkw hc
    have hany : (["updated", "created", "resolved"].any
        (fun x => containsSub x (pyLower jql))) = true :=
      List.any_eq_true.mpr ⟨kw, hkw, hc⟩
    simp only [_ensure_bounded_jql]
    rw [hany]
    simp

/-- Witness for C7: the unbounded example query has no recency keyword
and gets the 90-day bound conjoined. -/
theorem c7_bounded_jql_witness :
    (∀ kw ∈ ["updated", "created", "resolved"],
      containsSub kw (pyLower "project = TEST") = false) ∧
    _ensure_bounded_jql "project = TEST" = "(project = TEST) AND updated >= -90d" :=
  ⟨by decide, c7_bounded_jql.1 "project = TEST" (by decide)⟩

/-- The head of a `dropWhile` result never satisfies the predicate. -/
theorem head_dropWhile_not {α : Type} (p : α → Bool) :
    ∀ (l : List α) (a : α), (l.dropWhile p).head? = some a → p a = false := by
  intro l
  induction l with
  | nil => intro a h; exact Option.noConfusion h
  | cons x rest ih =>
    intro a h
    by_cases hx : p x = true
    · rw [List.dropWhile_cons_of_pos hx] at h
      exact ih a h
    · rw [Bool.not_eq_true] at hx
      rw [List.dropWhile_cons_of_neg (by rw [hx]; exact Bool.false_ne_true)] at h
      injection h with h1
      rw [← h1]
      exact hx

/-- `rstrip("/")` leaves no trailing slash. -/
theorem rstripSlash_no_trailing (s : String) :
    (rstripSlash s).data.getLast? ≠ some '/' := by
  intro hc
  have h1 : (rstripSlash s).data =
      (s.data.reverse.dropWhile (fun c => c = '/')).reverse := rfl
  rw [h1, List.getLast?_reverse] at hc
  have := head_dropWhile_not (fun c => c = '/') s.data.reverse '/' hc
  simp at this

/-- C9: the URL normalizer maps the three spec examples as documented;
blank input (whitespace and slashes only) maps to the empty string; the
result never has a trailing slash; and when no netloc is parsed, the
host is the first path segment with the scheme defaulted to `https`. -/
theorem c9_url_normalizer :
    _normalize_jira_url "https://acme.atlassian.net/jira/software" =
      "https://acme.atlassian.net" ∧
    _normalize_jira_url "" = "" ∧
    _normalize_jira_url "acme.atlassian.net/" = "https://acme.atlassian.net" ∧
    (∀ s, rstripSlash (pyStrip s) = "" → _normalize_jira_url s = "") ∧
    (∀ s, (_normalize_jira_url s).data.getLast? ≠ some '/') ∧
    (∀ s, rstripSlash (pyStrip s) ≠ "" →
      (urlparseModel (rstripSlash (pyStrip s))).netloc = "" →
      _normalize_jira_url s = rstripSlash
        ((if (urlparseModel (rstripSlash (pyStrip s))).scheme = "" then "https"
          else (urlparseModel (rstripSlash (pyStrip s))).scheme) ++ "://" ++
          firstSegment (urlparseModel (rstripSlash (pyStrip s))).path)) := by
  refine ⟨rfl, rfl, rfl, ?_, ?_, ?_⟩
  · intro s h
    simp [_normalize_jira_url, h]
  · intro s
    by_cases h : rstripSlash (pyStrip s) = ""
    · simp [_normalize_jira_url, h]
    · simp only [_normalize_jira_url, h, if_neg (by exact h), ite_false]
      exact rstripSlash_no_trailing _
  · intro s h1 h2
    simp [_normalize_jira_url, h1, h2]

/-- Witness for C9: a blank input and a schemeless host-with-path input. -/
theorem c9_url_normalizer_witness :
    (rstripSlash (pyStrip " /// ") = "" ∧ _normalize_jira_url " /// " = "") ∧
    (rstripSlash (pyStrip "acme.atlassian.net/x") ≠ "" ∧
      (urlparseModel (rstripSlash (pyStrip "acme.atlassian.net/x"))).netloc = "" ∧
      _normalize_jira_url "acme.atlassian.net/x" = rstripSlash
        ((if (urlparseModel (rstripSlash (pyStrip "acme.atlassian.net/x"))).scheme = ""
            then "https"
          else (urlparseModel (rstripSlash (pyStrip "acme.atlassian.net/x"))).scheme) ++ "://" ++
          firstSegment (urlparseModel (rstripSlash (pyStrip "acme.atlassian.net/x"))).path)) :=
  ⟨⟨by decide, c9_url_normalizer.2.2.2.1 " /// " (by decide)⟩,
    ⟨by decide, by decide,
      c9_url_normalizer.2.2.2.2.2 "acme.atlassian.net/x" (by decide) (by decide)⟩⟩

/-! ## Claim theorems: filter resolution soft failure -/

/-- Reduction of a bind on a successful `Except` computation. -/
theorem except_bind_ok {ε A B : Type} (a : A) (f : A → Except ε B) :
    (Except.ok a >>= f : Except ε B) = f a := rfl

/-- `pure` on `Except` is `ok`. -/
theorem except_pure_eq {ε A : Type} (a : A) : (pure a : Except ε A) = Except.ok a := rfl

/-- `mapM` over the empty list succeeds with the empty list. -/
theorem mapM_nil_except {ε A B : Type} (f : A → Except ε B) :
    (([] : List A).mapM f) = Except.ok ([] : List B) := rfl

/-- The filter loop of `main` completes when one filter's resolution
fails (its entry is `[]`) and every other filter processes cleanly. -/
theorem processFilters_ok (cfg : Config) (fserver : String → HttpResp)
    (server : CursorRequest → CursorResponse JVal) (fid : String)
    (hfid : fetch_filter_issues cfg fserver server fid = .ok []) :
    ∀ fids : List String,
      (∀ g ∈ fids, g ≠ fid →
        ∃ r nr, fetch_filter_issues cfg fserver server g = .ok r ∧
          r.mapM (normalize_issue cfg.jira_url) = .ok nr) →
      ∃ frs, processFilters cfg fserver server fids = .ok frs ∧
        (fid ∈ fids → alistGet frs fid = some []) := by
  intro fids
  induction fids with
  | nil => intro _; exact ⟨[], rfl, by simp⟩
  | cons g rest ih =>
    intro h
    obtain ⟨frs, hfrs, hmem⟩ := ih (fun g2 hg2 hne => h g2 (by simp [hg2]) hne)
    by_cases hg : g = fid
    · subst hg
      refine ⟨(g, []) :: frs, ?_, ?_⟩
      · simp only [processFilters, hfid, except_bind_ok, mapM_nil_except, hfrs]
      · intro _; simp [alistGet]
    · obtain ⟨r, nr, hr, hnr⟩ := h g (by simp) hg
      refine ⟨(g, nr) :: frs, ?_, ?_⟩
      · simp only [processFilters, hr, except_bind_ok, hnr, hfrs]
      · intro hmem2
        have hrest : fid ∈ rest := by
          rcases List.mem_cons.mp hmem2 with h1 | h1
          · exact absurd h1.symm hg
          · exact h1
        have hne : ¬ fid = g := fun hc => hg hc.symm
        simp [alistGet, hne, hmem hrest]

/-- C6: a filter id whose resolution request returns a non-success
status makes `get_filter_jql` return the `None` sentinel without
raising and `fetch_filter_issues` return `[]`; and provided the main
fetch and every other filter process cleanly, the whole pipeline still
completes, recording `[]` for the failed filter. -/
theorem c6_filter_resolution_soft_failure (cfg : Config) (fserver : String → HttpResp)
    (server : CursorRequest → CursorResponse JVal) (fid : String) (fids : List String)
    (h404 : (fserver fid).status ≠ 200) :
    get_filter_jql (fserver fid) = .ok .null ∧
    fetch_filter_issues cfg fserver server fid = .ok [] ∧
    (∀ xs, fetch_all_issues cfg server none 1000 = .ok xs →
      ∀ nxs, xs.mapM (normalize_issue cfg.jira_url) = .ok nxs →
      (∀ g ∈ fids, g ≠ fid →
        ∃ r nr, fetch_filter_issues cfg fserver server g = .ok r ∧
          r.mapM (normalize_issue cfg.jira_url) = .ok nr) →
      ∃ res, runPipeline cfg fserver server fids = .ok res ∧
        (fid ∈ fids → alistGet res.2.2 fid = some [])) := by
  have hjql : get_filter_jql (fserver fid) = .ok .null := by
    simp [get_filter_jql, h404]
  have hfetch : fetch_filter_issues cfg fserver server fid = .ok [] := by
    simp only [fetch_filter_issues, hjql, except_bind_ok]
    rfl
  refine ⟨hjql, hfetch, ?_⟩
  intro xs hxs nxs hnxs hothers
  obtain ⟨frs, hfrs, hmem⟩ := processFilters_ok cfg fserver server fid hfetch fids hothers
  refine ⟨(nxs, aggregate_for_dashboard nxs, frs), ?_, fun hf => hmem hf⟩
  simp only [runPipeline, hxs, hfrs, hnxs, except_bind_ok]

/-- Witness for C6: one filter returning 404 against an otherwise empty
setup; the pipeline completes with `[]` recorded for that filter. -/
theorem c6_filter_resolution_soft_failure_witness :
    (fserver404 "7").status ≠ 200 ∧
    ∃ res, runPipeline cfgCloud fserver404 serverEmptyJ ["7"] = .ok res ∧
      alistGet res.2.2 "7" = some [] := by
  have hothers : ∀ g ∈ (["7"] : List String), g ≠ "7" →
      ∃ r nr, fetch_filter_issues cfgCloud fserver404 serverEmptyJ g = .ok r ∧
        r.mapM (normalize_issue cfgCloud.jira_url) = .ok nr := by
    intro g hg hne
    exact absurd (by simpa using hg) hne
  obtain ⟨res, hres, hm⟩ :=
    (c6_filter_resolution_soft_failure cfgCloud fserver404 serverEmptyJ "7" ["7"]
      (by decide)).2.2 [] rfl [] rfl hothers
  exact ⟨by decide, res, hres, hm (by simp)⟩

/-- Witness for C10: a raw issue with explicit `null` status and summary
normalizes with the status default and a passed-through `null` summary. -/
theorem c10_normalize_explicit_nulls_witness :
    WellShapedRaw issueWithNulls ∧
    (∃ out, normalize_issue "https://acme.atlassian.net" issueWithNulls = .ok out ∧
      ∀ m, issueWithNulls = JVal.obj m →
        ((rawSub m "status" = some .null → out.status = .str "Unknown") ∧
         (rawSub m "issuetype" = some .null → out.issuetype = .str "Unknown") ∧
         (rawSub m "priority" = some .null → out.priority = .str "None") ∧
         (rawSub m "assignee" = some .null → out.assignee = .str "Unassigned") ∧
         (rawSub m "project" = some .null → out.project = .str "") ∧
         (rawSub m "summary" = some .null → out.summary = .null) ∧
         (rawSub m "created" = some .null → out.created = .null) ∧
         (rawSub m "updated" = some .null → out.updated = .null))) := by
  have hdn : dictish JVal.null := Or.inl rfl
  have h1 : ∀ v, alistGet [("status", JVal.null), ("summary", JVal.null),
      ("created", JVal.null), ("updated", JVal.null)] "status" = some v → dictish v := by
    intro v hv
    rw [show alistGet [("status", JVal.null), ("summary", JVal.null),
      ("created", JVal.null), ("updated", JVal.null)] "status" = some JVal.null from rfl] at hv
    injection hv with hv1
    exact hv1 ▸ hdn
  have h2 : ∀ v, alistGet [("status", JVal.null), ("summary", JVal.null),
      ("created", JVal.null), ("updated", JVal.null)] "issuetype" = some v → dictish v := by
    intro v hv
    rw [show alistGet [("status", JVal.null), ("summary", JVal.null),
      ("created", JVal.null), ("updated", JVal.null)] "issuetype" =
        (none : Option JVal) from rfl] at hv
    exact Option.noConfusion hv
  have h3 : ∀ v, alistGet [("status", JVal.null), ("summary", JVal.null),
      ("created", JVal.null), ("updated", JVal.null)] "priority" = some v → dictish v := by
    intro v hv
    rw [show alistGet [("status", JVal.null), ("summary", JVal.null),
      ("created", JVal.null), ("updated", JVal.null)] "priority" =
        (none : Option JVal) from rfl] at hv
    exact Option.noConfusion hv
  have h4 : ∀ v, alistGet [("status", JVal.null), ("summary", JVal.null),
      ("created", JVal.null), ("updated", JVal.null)] "assignee" = some v → dictish v := by
    intro v hv
    rw [show alistGet [("status", JVal.null), ("summary", JVal.null),
      ("created", JVal.null), ("updated", JVal.null)] "assignee" =
        (none : Option JVal) from rfl] at hv
    exact Option.noConfusion hv
  have h5 : ∀ v, alistGet [("status", JVal.null), ("summary", JVal.null),
      ("created", JVal.null), ("updated", JVal.null)] "project" = some v → dictish v := by
    intro v hv
    rw [show alistGet [("status", JVal.null), ("summary", JVal.null),
      ("created", JVal.null), ("updated", JVal.null)] "project" =
        (none : Option JVal) from rfl] at hv
    exact Option.noConfusion hv
  have hws : WellShapedRaw issueWithNulls :=
    ⟨_, rfl, Or.inr ⟨_, rfl, h1, h2, h3, h4, h5⟩⟩
  exact ⟨hws, c10_normalize_explicit_nulls "https://acme.atlassian.net" issueWithNulls hws⟩

end JiraDash
